import Mathlib

/-!
Verification of the data-normalization and filter/aggregation core of the
consolidation dashboard (src/dashboard_consolidacion.py).

The tabular data is embedded shallowly: a raw table is a list of typed rows
plus the list of (possibly padded) column names; `preprocess_data`,
the filter pipeline and the aggregation are translated from the script.
Pandas cell-level semantics (missing values, `astype(str)`, `.str.strip()`,
`.str.upper()`, `Series.replace`, comparisons against `NaN`) are modelled
explicitly; missing cells are `Option.none`.
-/

/-! ## Python string primitives (str.strip, str.upper, str.title) -/

/-- Whitespace characters removed by Python `str.strip()` (the ASCII ones;
the inputs of this dataset contain no exotic Unicode whitespace). -/
def pyIsSpace (c : Char) : Bool :=
  c = ' ' || c = '\t' || c = '\n' || c = '\r' || c = '\x0b' || c = '\x0c'

/-- Lower-to-upper character table of Python `str.upper()`, restricted to the
ASCII letters plus the accented Latin letters occurring in this data set
(Spanish). All other characters are left unchanged, as `str.upper` does. -/
def upperPairs : List (Char × Char) :=
  [('a', 'A'), ('b', 'B'), ('c', 'C'), ('d', 'D'), ('e', 'E'), ('f', 'F'),
   ('g', 'G'), ('h', 'H'), ('i', 'I'), ('j', 'J'), ('k', 'K'), ('l', 'L'),
   ('m', 'M'), ('n', 'N'), ('o', 'O'), ('p', 'P'), ('q', 'Q'), ('r', 'R'),
   ('s', 'S'), ('t', 'T'), ('u', 'U'), ('v', 'V'), ('w', 'W'), ('x', 'X'),
   ('y', 'Y'), ('z', 'Z'),
   ('á', 'Á'), ('é', 'É'), ('í', 'Í'), ('ó', 'Ó'), ('ú', 'Ú'),
   ('à', 'À'), ('è', 'È'), ('ì', 'Ì'), ('ò', 'Ò'), ('ù', 'Ù'),
   ('ñ', 'Ñ'), ('ü', 'Ü')]

/-- One character of Python `str.upper()`. -/
def upperChar (c : Char) : Char :=
  ((upperPairs.find? (fun p => p.1 == c)).map Prod.snd).getD c

/-- One character of Python `str.lower()` (inverse table of `upperPairs`). -/
def lowerChar (c : Char) : Char :=
  ((upperPairs.find? (fun p => p.2 == c)).map Prod.fst).getD c

/-- Letter test used by the `str.title()` model. -/
def pyIsAlpha (c : Char) : Bool :=
  upperPairs.any (fun p => p.1 == c) || upperPairs.any (fun p => p.2 == c)

/-- Python `str.upper()` on a character list. -/
def pyUpperL (l : List Char) : List Char := l.map upperChar

/-- Python `str.upper()`. -/
def pyUpper (s : String) : String := ⟨pyUpperL s.data⟩

/-- Leading-whitespace removal (left half of `str.strip()`). -/
def stripFront (l : List Char) : List Char := l.dropWhile pyIsSpace

/-- Trailing-whitespace removal (right half of `str.strip()`). -/
def stripBack : List Char → List Char
  | [] => []
  | c :: t =>
    if (stripBack t).isEmpty && pyIsSpace c then [] else c :: stripBack t

/-- Python `str.strip()` on a character list. -/
def pyStripL (l : List Char) : List Char := stripBack (stripFront l)

/-- Python `str.strip()`. -/
def pyStrip (s : String) : String := ⟨pyStripL s.data⟩

/-- Python `str.title()` on a character list; the boolean is whether the
previous character was a letter. -/
def pyTitleL : List Char → Bool → List Char
  | [], _ => []
  | c :: t, prevAlpha =>
    (if pyIsAlpha c then (if prevAlpha then lowerChar c else upperChar c) else c)
      :: pyTitleL t (pyIsAlpha c)

/-- Python `str.title()`. -/
def pyTitle (s : String) : String := ⟨pyTitleL s.data false⟩

/-! ## Timestamps: pandas `to_datetime` with the formats of the script -/

/-- A parsed timestamp (pandas `Timestamp`, to second precision — the data
carries no sub-second part). -/
structure DateTime where
  year : Nat
  month : Nat
  day : Nat
  hour : Nat
  minute : Nat
  second : Nat
deriving DecidableEq

def isLeap (y : Nat) : Bool := (y % 4 = 0 && y % 100 ≠ 0) || y % 400 = 0

def daysInMonth (y m : Nat) : Nat :=
  if m = 2 then (if isLeap y then 29 else 28)
  else if m = 4 || m = 6 || m = 9 || m = 11 then 30 else 31

/-- Split a character list at every occurrence of `sep` (model of splitting a
format string at its separators). -/
def splitOnCharAux (sep : Char) : List Char → List Char → List (List Char)
  | [], acc => [acc.reverse]
  | c :: t, acc =>
    if c = sep then acc.reverse :: splitOnCharAux sep t []
    else splitOnCharAux sep t (c :: acc)

def splitOnChar (sep : Char) (l : List Char) : List (List Char) :=
  splitOnCharAux sep l []

def digitsToNat (l : List Char) : Nat :=
  l.foldl (fun n c => n * 10 + (c.toNat - 48)) 0

/-- A numeric field of a strptime format: between `lo` and `hi` digits. -/
def parseNatField (lo hi : Nat) (l : List Char) : Option Nat :=
  if lo ≤ l.length ∧ l.length ≤ hi ∧ l.all Char.isDigit then some (digitsToNat l)
  else none

/-- Strict parse with format `%d/%m/%Y` (`errors="coerce"` is the `none`
result): day first, real calendar validation, no time of day. -/
def parse_dmY_chars (l : List Char) : Option DateTime :=
  match splitOnChar '/' l with
  | [ds, ms, ys] => do
    let d ← parseNatField 1 2 ds
    let m ← parseNatField 1 2 ms
    let y ← parseNatField 4 4 ys
    if 1 ≤ m ∧ m ≤ 12 ∧ 1 ≤ d ∧ d ≤ daysInMonth y m then
      some ⟨y, m, d, 0, 0, 0⟩
    else none
  | _ => none

/-- Strict parse with format `%d/%m/%Y %H:%M:%S`. -/
def parse_dmY_HMS_chars (l : List Char) : Option DateTime :=
  match splitOnChar ' ' l with
  | [dpart, tpart] => do
    let dt ← parse_dmY_chars dpart
    match splitOnChar ':' tpart with
    | [hs, mins, ss] => do
      let h ← parseNatField 1 2 hs
      let mi ← parseNatField 1 2 mins
      let s ← parseNatField 1 2 ss
      if h < 24 ∧ mi < 60 ∧ s < 60 then
        some { dt with hour := h, minute := mi, second := s }
      else none
    | _ => none
  | _ => none

/-- `pd.to_datetime(cell, format="%d/%m/%Y", errors="coerce")` on a raw string. -/
def parse_dmY (s : String) : Option DateTime := parse_dmY_chars s.data

/-- `pd.to_datetime(cell, format="%d/%m/%Y %H:%M:%S", errors="coerce")` on a
raw string. -/
def parse_dmY_HMS (s : String) : Option DateTime := parse_dmY_HMS_chars s.data

/-- `pd.to_datetime` applied to a cell that is already of datetime kind
(a `Timestamp` or `NaT`): pandas returns the value unchanged, whatever
`format=`/`dayfirst=` arguments are supplied, and `NaT` stays `NaT`. -/
def to_datetime_on_datetime_cell (v : Option DateTime) : Option DateTime := v

/-- The timestamp pipeline of `preprocess_data` (lines 85—101 of the script)
applied to one raw cell. Tier 1 parses the raw string strictly as
`%d/%m/%Y %H:%M:%S`. The script then OVERWRITES the `Marca temporal`
column with the tier-1 result, so the two retry tiers
(`format="%d/%m/%Y"`, then `dayfirst=True`) run on the already-coerced
column values — which are `NaT` exactly where tier 1 failed — and not on
the original raw strings. -/
def parse_marca_temporal (raw : Option String) : Option DateTime :=
  let v1 := raw.bind parse_dmY_HMS
  let v2 := match v1 with
    | some t => some t
    | none => to_datetime_on_datetime_cell none
  match v2 with
  | some t => some t
  | none => to_datetime_on_datetime_cell none

/-! ## Day-of-week and ISO week (`Series.dt.dayofweek`, `dt.isocalendar().week`) -/

def sakamotoTable : List Nat := [0, 3, 2, 5, 0, 3, 5, 1, 4, 6, 2, 4]

/-- Day of week with pandas numbering: Monday = 0 … Sunday = 6
(Sakamoto's method, shifted). -/
def dayofweek (y m d : Nat) : Nat :=
  let y' := if m < 3 then y - 1 else y
  ((y' + y' / 4 - y' / 100 + y' / 400 + sakamotoTable.getD (m - 1) 0 + d) % 7 + 6) % 7

def dow_dt (t : DateTime) : Nat := dayofweek t.year t.month t.day

def dayOfYear (y m d : Nat) : Nat :=
  (List.range (m - 1)).foldl (fun acc i => acc + daysInMonth y (i + 1)) 0 + d

/-- `p(y)` of the ISO week-date rules: the number of 53-week years is driven
by this quantity. -/
def isoP (y : Nat) : Nat := (y + y / 4 - y / 100 + y / 400) % 7

def weeksInYear (y : Nat) : Nat := if isoP y = 4 ∨ isoP (y - 1) = 3 then 53 else 52

/-- ISO-8601 week number (`dt.isocalendar().week`). -/
def isoWeek (y m d : Nat) : Nat :=
  let dow := dayofweek y m d + 1
  let w := (dayOfYear y m d + 10 - dow) / 7
  if w = 0 then weeksInYear (y - 1)
  else if weeksInYear y < w then 1
  else w

/-- `strftime("%B")` month names (pandas default C locale). -/
def monthNames : List String :=
  ["January", "February", "March", "April", "May", "June", "July", "August",
   "September", "October", "November", "December"]

def monthName (m : Nat) : String := monthNames.getD (m - 1) ""

-- Sanity examples for the calendar arithmetic (2024-01-15 was a Monday,
-- 2024-01-13 a Saturday in ISO week 2).
example : dayofweek 2024 1 15 = 0 := by decide
example : dayofweek 2024 1 13 = 5 := by decide
example : isoWeek 2024 1 13 = 2 := by decide

/-! ## Yes/No alias resolution (lines 132—161 of the script) -/

/-- `Series.replace` with a dict of scalars: a cell is replaced only when it
equals a key exactly. -/
def pdReplace (m : List (String × String)) (s : String) : String :=
  match m with
  | [] => s
  | (k, v) :: rest => if s = k then v else pdReplace rest s

/-- The affirmative alias dict of the script (applied first). -/
def siMap : List (String × String) :=
  [("SÍ", "SI"), ("SÌ", "SI"), ("SI", "SI"), ("YES", "SI"), ("Y", "SI"),
   ("S", "SI"), ("1", "SI"), ("TRUE", "SI")]

/-- The negative alias dict of the script (applied second). -/
def noMap : List (String × String) :=
  [("NO", "NO"), ("N", "NO"), ("0", "NO"), ("FALSE", "NO"),
   ("SIN GESTIÓN", "NO"), ("SIN GESTION", "NO")]

/-- `astype(str)` on one cell: a missing value (`NaN`) stringifies to `"nan"`. -/
def astype_str (v : Option String) : String :=
  match v with
  | some s => s
  | none => "nan"

/-- The per-cell yes/no normalization of the script:
`.str.strip().str.upper()` then the two `replace` dicts. -/
def normalize_sino (s : String) : String :=
  pdReplace noMap (pdReplace siMap (pyUpper (pyStrip s)))

/-- Full cell pipeline including `astype(str)` (line 141). -/
def normalize_cell (v : Option String) : String := normalize_sino (astype_str v)

/-! ## Raw and normalized tables -/

/-- One row of the source CSV, restricted to the columns the core logic
touches. A `none` field is a missing cell (pandas `NaN`). `lider` and
`reunion` stand for whichever of the alias-named leader/meeting columns is
present in the deployment. -/
structure RawRow where
  marcaTemporal : Option String
  nombres : Option String
  llamada : Option String
  celula : Option String
  visita : Option String
  tuEres : Option String
  barrio : Option String
  lider : Option String
  reunion : Option String
deriving DecidableEq

structure RawTable where
  columns : List String
  rows : List RawRow
deriving DecidableEq

/-- A normalized row: the raw row augmented with the derived columns of
`preprocess_data`. Fields are `none` when the source column is absent or the
derivation did not apply (e.g. time fields of an unparsed timestamp). -/
structure NRow where
  marcaTemporal : Option DateTime
  anio : Option Nat
  mes : Option Nat
  mesNombre : Option String
  semana : Option Nat
  esFinSemana : Option Bool
  nombres : Option String
  llamada : Option String
  celula : Option String
  visita : Option String
  grupoEdad : Option String
  barrioN : Option String
  lider : Option String
  reunionN : Option String
deriving DecidableEq

/-- The normalized table plus the column-presence record returned by
`preprocess_data` (`columna_lider`, `columna_reunion`, and the presence of
the fixed-name columns the later sections test with `in df.columns`). -/
structure NTable where
  columnaLider : Option String
  columnaReunion : Option String
  hasMarca : Bool
  hasLlamada : Bool
  hasCelula : Bool
  hasVisita : Bool
  hasGrupoEdad : Bool
  hasBarrio : Bool
  rows : List NRow
deriving DecidableEq

def posiblesLideres : List String :=
  ["Líder Principal", "LIDER DE DOCE", "Lider Principal", "LÍDER PRINCIPAL"]

def posiblesReuniones : List String :=
  ["¿A qué reunión viniste?", "¿A que reunión viniste?", "Reunión", "REUNION"]

def colMarca : String := "Marca temporal"
def colNombres : String := "Nombres y apellidos completos"
def colLlamada : String := "Llamada realizada y contestada (SI/NO)"
def colCelula : String := "Ubicado en célula o Grupo Go! (SI/NO)"
def colVisita : String := "Visita realizada (SI/NO)"
def colTuEres : String := "Tú eres:"
def colBarrio : String := "¿En qué barrio vives?"

/-- `df.columns.str.strip()` (line 65). -/
def cleaned_cols (t : RawTable) : List String := t.columns.map pyStrip

/-- Leader-column auto-detection (lines 67—73): first candidate present. -/
def detect_lider (t : RawTable) : Option String :=
  posiblesLideres.find? (fun cand => (cleaned_cols t).contains cand)

/-- Meeting-column auto-detection (lines 75—82). -/
def detect_reunion (t : RawTable) : Option String :=
  posiblesReuniones.find? (fun cand => (cleaned_cols t).contains cand)

def has_marca (t : RawTable) : Bool := (cleaned_cols t).contains colMarca

/-- The parsed `Marca temporal` value of one row (the whole tier pipeline,
gated on the column being present). -/
def parsed_cell (t : RawTable) (r : RawRow) : Option DateTime :=
  if has_marca t then parse_marca_temporal r.marcaTemporal else none

def parsed_list (t : RawTable) : List (Option DateTime) :=
  t.rows.map (parsed_cell t)

/-- Whether any valid weekday (Monday—Friday) occurs among the parsed
timestamps (`tiene_entre_semana`, line 125). -/
def tiene_entre_semana (ts : List (Option DateTime)) : Bool :=
  (ts.filterMap id).any (fun d => dow_dt d < 5)

/-- The dataset-wide weekend flag of lines 122—130, evaluated at one row
value `v`. `none` means the `Es_Fin_Semana` column is never created
(no valid timestamp at all). In the per-record branch a `NaT` row compares
`NaN >= 5` which is `False`. -/
def es_fin_semana (ts : List (Option DateTime)) (v : Option DateTime) : Option Bool :=
  if ts.any Option.isSome then
    if tiene_entre_semana ts then
      some (match v with | some d => decide (5 ≤ dow_dt d) | none => false)
    else some true
  else none

/-- The placeholder of line 170 and the `Barrio` derivation of lines 168—170:
`.str.strip().str.title()` keeps `NaN` as `NaN`, then `fillna`. -/
def barrio_norm (b : Option String) : String :=
  match b with
  | some s => pyTitle (pyStrip s)
  | none => "No especificado"

/-- One row of `preprocess_data` output (the whole-table inputs a row
derivation needs — column presence and the parsed timestamp list for the
weekend rule — are recomputed from `t`). -/
def normalize_row (t : RawTable) (r : RawRow) : NRow :=
  let mt := parsed_cell t r
  { marcaTemporal := mt
    anio := mt.map DateTime.year
    mes := mt.map DateTime.month
    mesNombre := mt.map (fun d => monthName d.month)
    semana := mt.map (fun d => isoWeek d.year d.month d.day)
    esFinSemana := if has_marca t then es_fin_semana (parsed_list t) mt else none
    nombres := r.nombres
    llamada := if (cleaned_cols t).contains colLlamada then some (normalize_cell r.llamada) else none
    celula := if (cleaned_cols t).contains colCelula then some (normalize_cell r.celula) else none
    visita := if (cleaned_cols t).contains colVisita then some (normalize_cell r.visita) else none
    grupoEdad := if (cleaned_cols t).contains colTuEres then r.tuEres.map pyStrip else none
    barrioN := if (cleaned_cols t).contains colBarrio then some (barrio_norm r.barrio) else none
    lider := r.lider
    reunionN := if (detect_reunion t).isSome then r.reunion.map pyStrip else none }

/-- `preprocess_data` (lines 60—172): column cleaning and detection, the
tiered timestamp parse, derived time fields, the dataset-wide weekend flag,
yes/no normalization, and the category columns. Rows are only mapped,
never dropped (the script deliberately keeps rows without a valid date). -/
def preprocess_data (t : RawTable) : NTable :=
  { columnaLider := detect_lider t
    columnaReunion := detect_reunion t
    hasMarca := has_marca t
    hasLlamada := (cleaned_cols t).contains colLlamada
    hasCelula := (cleaned_cols t).contains colCelula
    hasVisita := (cleaned_cols t).contains colVisita
    hasGrupoEdad := (cleaned_cols t).contains colTuEres
    hasBarrio := (cleaned_cols t).contains colBarrio
    rows := t.rows.map (normalize_row t) }

/-! ## Filter criteria and the filter pipeline (lines 316—347) -/

/-- The user-chosen filter criteria of the sidebar. `grupo`, `lider` and
`reunion` carry the sentinel strings "Todos"/"Todas" when disabled, exactly
as the widgets do. -/
structure Criteria where
  anios : List Nat
  usarFiltroMeses : Bool
  mesInicio : Nat
  mesFin : Nat
  grupo : String
  lider : String
  reunion : String
deriving DecidableEq

/-- Year mask of lines 320—324 at one row: keep rows whose `Año` is missing
(`mask_sin_fecha`) or selected (`isin`; a `NaN` year is never `isin`). -/
def keep_anio (anios : List Nat) (a : Option Nat) : Bool :=
  match a with
  | none => true
  | some y => anios.contains y

/-- Month mask of lines 327—335 at one row: `mask_sin_fecha | mask_meses`,
where the range test wraps around the year end when `inicio > fin`, and any
comparison against a missing month (`NaN`) is `False`. -/
def keep_month (inicio fin : Nat) (mes : Option Nat) : Bool :=
  mes.isNone ||
    (match mes with
     | none => false
     | some m =>
       if inicio ≤ fin then decide (inicio ≤ m) && decide (m ≤ fin)
       else decide (inicio ≤ m) || decide (m ≤ fin))

/-- The sequential filter pipeline building `df_filtrado`: each stage is
applied only under the same gate the script tests, and boolean-mask
indexing of the partially filtered frame is per-row filtering. -/
def df_filtrado (t : NTable) (c : Criteria) : List NRow :=
  let r1 := if c.anios ≠ [] ∧ t.hasMarca = true then
      t.rows.filter (fun r => keep_anio c.anios r.anio)
    else t.rows
  let r2 := if c.usarFiltroMeses = true ∧ t.hasMarca = true ∧
      t.rows.any (fun r => r.mes.isSome) = true then
      r1.filter (fun r => keep_month c.mesInicio c.mesFin r.mes)
    else r1
  let r3 := if c.grupo ≠ "Todos" ∧ t.hasGrupoEdad = true then
      r2.filter (fun r => r.grupoEdad == some c.grupo)
    else r2
  let r4 := if c.lider ≠ "Todos" ∧ t.columnaLider.isSome = true then
      r3.filter (fun r => r.lider == some c.lider)
    else r3
  if c.reunion ≠ "Todas" ∧ t.columnaReunion.isSome = true then
    r4.filter (fun r => r.reunionN == some c.reunion)
  else r4

/-- The conjunction of the three non-temporal stages of the pipeline (age
group, leader, meeting), each under its own gate: what a record must satisfy
besides the two time-based stages. -/
def nontemporal_pass (t : NTable) (c : Criteria) (r : NRow) : Bool :=
  (if c.grupo ≠ "Todos" ∧ t.hasGrupoEdad = true then r.grupoEdad == some c.grupo else true) &&
  (if c.lider ≠ "Todos" ∧ t.columnaLider.isSome = true then r.lider == some c.lider else true) &&
  (if c.reunion ≠ "Todas" ∧ t.columnaReunion.isSome = true then r.reunionN == some c.reunion else true)

/-! ## Aggregation (sections 5—8 of the script) -/

/-- A pandas float value as it can appear in the percentage columns:
a finite value, `NaN`, or a signed infinity. -/
inductive PFloat where
  | val : ℚ → PFloat
  | nan : PFloat
  | inf : PFloat
  | ninf : PFloat
deriving DecidableEq

/-- IEEE-754 float division as pandas performs it on Series: finite by zero
gives `NaN` for `0/0` and a signed infinity otherwise; `NaN` propagates. -/
def pfDiv (x y : PFloat) : PFloat :=
  match x, y with
  | .nan, _ => .nan
  | _, .nan => .nan
  | .val a, .val b =>
      if b = 0 then (if a = 0 then .nan else if 0 < a then .inf else .ninf)
      else .val (a / b)
  | .val _, .inf => .val 0
  | .val _, .ninf => .val 0
  | .inf, .val b => if 0 ≤ b then .inf else .ninf
  | .ninf, .val b => if 0 ≤ b then .ninf else .inf
  | .inf, .inf => .nan
  | .inf, .ninf => .nan
  | .ninf, .inf => .nan
  | .ninf, .ninf => .nan

/-- IEEE-754 float multiplication on the same value space. -/
def pfMul (x y : PFloat) : PFloat :=
  match x, y with
  | .nan, _ => .nan
  | _, .nan => .nan
  | .val a, .val b => .val (a * b)
  | .inf, .val b => if b = 0 then .nan else if 0 < b then .inf else .ninf
  | .val a, .inf => if a = 0 then .nan else if 0 < a then .inf else .ninf
  | .ninf, .val b => if b = 0 then .nan else if 0 < b then .ninf else .inf
  | .val a, .ninf => if a = 0 then .nan else if 0 < a then .ninf else .inf
  | .inf, .inf => .inf
  | .ninf, .ninf => .inf
  | .inf, .ninf => .ninf
  | .ninf, .inf => .ninf

/-- Round half to even on rationals (the rounding of IEEE floats and of
`Series.round`; the aggregation never lands exactly on a tie, so the tie
rule is immaterial to the claims). -/
def roundHalfEven (q : ℚ) : ℤ :=
  if q - ⌊q⌋ = 1 / 2 then (if ⌊q⌋ % 2 = 0 then ⌊q⌋ else ⌊q⌋ + 1) else round q

/-- `Series.round(1)`: `NaN` and the infinities pass through. -/
def pfRound1 (x : PFloat) : PFloat :=
  match x with
  | .val q => .val ((roundHalfEven (q * 10) : ℚ) / 10)
  | other => other

/-- The guarded grand-total percentage of lines 374—376:
`(num / den * 100) if den > 0 else 0`. -/
def pct_of (num den : Nat) : ℚ :=
  if 0 < den then (num : ℚ) / den * 100 else 0

/-- The unguarded per-group percentage of lines 470—472 and 558—560:
`(num / den * 100).round(1)` in float arithmetic. -/
def pct_group (num den : Nat) : PFloat :=
  pfRound1 (pfMul (pfDiv (.val num) (.val den)) (.val 100))

/-- Boolean string comparison, smallest-first (code-point order like pandas
group-key sorting). -/
def strLtb : List Char → List Char → Bool
  | [], [] => false
  | [], _ :: _ => true
  | _ :: _, [] => false
  | a :: s, b :: t => if a < b then true else if b < a then false else strLtb s t

def insertBy {α : Type} (le : α → α → Bool) (a : α) : List α → List α
  | [] => [a]
  | b :: t => if le a b then a :: b :: t else b :: insertBy le a t

def sortBy {α : Type} (le : α → α → Bool) (l : List α) : List α :=
  l.foldr (insertBy le) []

/-- One row of a `groupby(...).agg(...)` breakdown (leader or meeting):
`count` of non-missing names, the three `(x == "SI").sum()` counts, and the
three rounded percentages of lines 470—472. -/
structure GroupStat where
  clave : String
  nuevos : Nat
  llamadas : Nat
  celula : Nat
  visitas : Nat
  pctLlamadas : PFloat
  pctCelula : PFloat
  pctVisitas : PFloat
deriving DecidableEq

/-- `groupby` on an optional key column: missing keys are dropped, group keys
are sorted ascending, and each group aggregates the rows whose key matches. -/
def group_stats (key : NRow → Option String) (rows : List NRow) : List GroupStat :=
  (sortBy (fun a b => !(strLtb b.data a.data)) (rows.filterMap key).dedup).map (fun k =>
    let grp := rows.filter (fun r => key r == some k)
    let nuevos := (grp.filter (fun r => r.nombres.isSome)).length
    let llam := (grp.filter (fun r => r.llamada == some "SI")).length
    let cel := (grp.filter (fun r => r.celula == some "SI")).length
    let vis := (grp.filter (fun r => r.visita == some "SI")).length
    { clave := k, nuevos := nuevos, llamadas := llam, celula := cel, visitas := vis
      pctLlamadas := pct_group llam nuevos
      pctCelula := pct_group cel nuevos
      pctVisitas := pct_group vis nuevos })

/-- `value_counts()`: frequency of each non-missing value, most frequent
first. -/
def value_counts (vals : List String) : List (String × Nat) :=
  sortBy (fun a b => decide (b.2 ≤ a.2))
    (vals.dedup.map (fun k => (k, (vals.filter (fun v => v == k)).length)))

/-- The monthly series of lines 392—393: `groupby(["Mes", "Mes_Nombre"])`
sizes (missing keys dropped), sorted ascending by month number. -/
def mensual_stats (rows : List NRow) : List (Nat × String × Nat) :=
  (sortBy (fun a b => decide (a.1 ≤ b.1))
      (rows.filterMap (fun r => r.mes.bind (fun m => r.mesNombre.map (fun n => (m, n))))).dedup).map
    (fun k => (k.1, k.2,
      (rows.filter (fun r => r.mes == some k.1 && r.mesNombre == some k.2)).length))

/-- Zero-padding to two digits (`str.zfill(2)`). -/
def zfill2 (n : Nat) : String := if n < 10 then "0" ++ toString n else toString n

/-- The weekly series of lines 408—409: `groupby(["Año", "Semana"])` sizes
with the composite period label. -/
def semanal_stats (rows : List NRow) : List (Nat × Nat × String × Nat) :=
  (sortBy (fun a b => decide (a.1 < b.1 ∨ (a.1 = b.1 ∧ a.2 ≤ b.2)))
      (rows.filterMap (fun r => r.anio.bind (fun y => r.semana.map (fun w => (y, w))))).dedup).map
    (fun k => (k.1, k.2, toString k.1 ++ "-S" ++ zfill2 k.2,
      (rows.filter (fun r => r.anio == some k.1 && r.semana == some k.2)).length))

/-- Every aggregate the dashboard derives from the filtered table. Optional
outputs are `none` when the script omits the corresponding section because
the column is absent. -/
structure Aggregates where
  totalPersonas : Nat
  totalLlamadas : Nat
  totalCelula : Nat
  totalVisita : Nat
  pctLlamadas : ℚ
  pctCelula : ℚ
  pctVisita : ℚ
  mensual : List (Nat × String × Nat)
  semanal : List (Nat × Nat × String × Nat)
  lideres : Option (List GroupStat)
  reuniones : Option (List GroupStat)
  gruposDist : List (String × Nat)
  barriosTop : List (String × Nat)
  reunionDist : Option (List (String × Nat))
deriving DecidableEq

/-- The aggregation of sections 5—8 over the filtered rows. The grand totals
use `df.get(col, empty)` so an absent yes/no column counts 0; the leader and
meeting breakdowns and the meeting distribution are emitted only when the
corresponding column was detected. -/
def aggregate (t : NTable) (rows : List NRow) : Aggregates :=
  let total := rows.length
  let llam := if t.hasLlamada then (rows.filter (fun r => r.llamada == some "SI")).length else 0
  let cel := if t.hasCelula then (rows.filter (fun r => r.celula == some "SI")).length else 0
  let vis := if t.hasVisita then (rows.filter (fun r => r.visita == some "SI")).length else 0
  { totalPersonas := total
    totalLlamadas := llam
    totalCelula := cel
    totalVisita := vis
    pctLlamadas := pct_of llam total
    pctCelula := pct_of cel total
    pctVisita := pct_of vis total
    mensual := mensual_stats rows
    semanal := semanal_stats rows
    lideres := if t.columnaLider.isSome then some (group_stats NRow.lider rows) else none
    reuniones := if t.columnaReunion.isSome then some (group_stats NRow.reunionN rows) else none
    gruposDist := if t.hasGrupoEdad then value_counts (rows.filterMap NRow.grupoEdad) else []
    barriosTop := if t.hasBarrio then (value_counts (rows.filterMap NRow.barrioN)).take 10 else []
    reunionDist := if t.columnaReunion.isSome then some (value_counts (rows.filterMap NRow.reunionN)) else none }

/-! ## Helper lemmas on the string primitives -/

theorem upperPairs_values_fixed :
    ∀ p ∈ upperPairs, upperPairs.find? (fun q => q.1 == p.2) = none := by decide

theorem upperPairs_not_space :
    ∀ p ∈ upperPairs, pyIsSpace p.1 = false ∧ pyIsSpace p.2 = false := by decide

theorem upperChar_idem (c : Char) : upperChar (upperChar c) = upperChar c := by
  unfold upperChar
  cases hf : upperPairs.find? (fun p => p.1 == c) with
  | none => simp [hf]
  | some p =>
    have hmem : p ∈ upperPairs := List.mem_of_find?_eq_some hf
    simp [upperPairs_values_fixed p hmem]

theorem upperChar_space (c : Char) : pyIsSpace (upperChar c) = pyIsSpace c := by
  unfold upperChar
  cases hf : upperPairs.find? (fun p => p.1 == c) with
  | none => simp
  | some p =>
    have hmem : p ∈ upperPairs := List.mem_of_find?_eq_some hf
    have hkey : p.1 = c := by simpa using List.find?_some hf
    have h2 := upperPairs_not_space p hmem
    simp [h2.2, ← hkey, h2.1]

theorem pyUpperL_idem (l : List Char) : pyUpperL (pyUpperL l) = pyUpperL l := by
  induction l with
  | nil => rfl
  | cons c t ih => simp only [pyUpperL, List.map_cons] at ih ⊢; rw [upperChar_idem]; rw [ih]

theorem dropWhile_idem (p : Char → Bool) (l : List Char) :
    (l.dropWhile p).dropWhile p = l.dropWhile p := by
  induction l with
  | nil => rfl
  | cons c t ih =>
    by_cases h : p c
    · simpa [List.dropWhile_cons, h] using ih
    · simp [List.dropWhile_cons, h]

theorem stripBack_idem (l : List Char) : stripBack (stripBack l) = stripBack l := by
  induction l with
  | nil => rfl
  | cons c t ih =>
    by_cases h : (stripBack t).isEmpty && pyIsSpace c
    · simp [stripBack, h]
    · have h2 : stripBack (c :: t) = c :: stripBack t := by
        simp only [stripBack]; simp [h]
      rw [h2]
      simp only [stripBack]
      rw [ih]
      simp [h]

theorem dropWhile_length_le (p : Char → Bool) (l : List Char) :
    (l.dropWhile p).length ≤ l.length := by
  induction l with
  | nil => simp
  | cons c t ih =>
    by_cases h : p c
    · simp only [List.dropWhile_cons, h, if_pos]
      exact le_trans ih (Nat.le_succ _)
    · simp [List.dropWhile_cons, h]

theorem dropWhile_self_head (c : Char) (t : List Char)
    (h : List.dropWhile pyIsSpace (c :: t) = c :: t) : pyIsSpace c = false := by
  by_contra hc
  have hc' : pyIsSpace c = true := by revert hc; cases pyIsSpace c <;> simp
  rw [List.dropWhile_cons, if_pos hc'] at h
  have := dropWhile_length_le pyIsSpace t
  rw [h] at this
  simp at this

theorem dropWhile_stripBack (u : List Char) (h : List.dropWhile pyIsSpace u = u) :
    List.dropWhile pyIsSpace (stripBack u) = stripBack u := by
  cases u with
  | nil => rfl
  | cons c t =>
    have hc : pyIsSpace c = false := dropWhile_self_head c t h
    by_cases hb : (stripBack t).isEmpty && pyIsSpace c
    · simp [stripBack, hb]
    · simp [stripBack, hb, List.dropWhile_cons, hc]

theorem pyStripL_idem (l : List Char) : pyStripL (pyStripL l) = pyStripL l := by
  unfold pyStripL stripFront
  rw [dropWhile_stripBack _ (dropWhile_idem pyIsSpace l), stripBack_idem]

theorem dropWhile_map_upper (l : List Char) :
    List.dropWhile pyIsSpace (pyUpperL l) = pyUpperL (List.dropWhile pyIsSpace l) := by
  induction l with
  | nil => rfl
  | cons c t ih =>
    simp only [pyUpperL, List.map_cons, List.dropWhile_cons, upperChar_space]
    by_cases h : pyIsSpace c
    · simpa [h] using ih
    · simp [h, pyUpperL]

theorem isEmpty_map {α β : Type} (f : α → β) (l : List α) :
    (l.map f).isEmpty = l.isEmpty := by cases l <;> simp

theorem stripBack_map_upper (l : List Char) :
    stripBack (pyUpperL l) = pyUpperL (stripBack l) := by
  induction l with
  | nil => rfl
  | cons c t ih =>
    simp only [pyUpperL, List.map_cons] at ih ⊢
    simp only [stripBack, ih, isEmpty_map, upperChar_space]
    by_cases h : (stripBack t).isEmpty && pyIsSpace c
    · simp [h]
    · simp [h]

theorem pyStripL_upper_comm (l : List Char) :
    pyStripL (pyUpperL l) = pyUpperL (pyStripL l) := by
  unfold pyStripL stripFront
  rw [dropWhile_map_upper, stripBack_map_upper]

theorem strip_upper_invariant (x : String) :
    pyStrip (pyUpper (pyStrip x)) = pyUpper (pyStrip x) ∧
    pyUpper (pyUpper (pyStrip x)) = pyUpper (pyStrip x) := by
  constructor
  · show (⟨pyStripL (pyUpperL (pyStripL x.data))⟩ : String) = ⟨pyUpperL (pyStripL x.data)⟩
    rw [pyStripL_upper_comm, pyStripL_idem]
  · show (⟨pyUpperL (pyUpperL (pyStripL x.data))⟩ : String) = ⟨pyUpperL (pyStripL x.data)⟩
    rw [pyUpperL_idem]

theorem pdReplace_const (v : String) (m : List (String × String)) :
    (∀ p ∈ m, p.2 = v) → ∀ s, pdReplace m s = if s ∈ m.map Prod.fst then v else s := by
  induction m with
  | nil => intro _ s; simp [pdReplace]
  | cons p t ih =>
    intro hm s
    obtain ⟨k, w⟩ := p
    have hw : w = v := hm (k, w) (by simp)
    have ht : ∀ q ∈ t, q.2 = v := fun q hq => hm q (List.mem_cons_of_mem _ hq)
    by_cases hs : s = k
    · simp [pdReplace, hs, hw]
    · have hiff : s ∈ List.map Prod.fst ((k, w) :: t) ↔ s ∈ List.map Prod.fst t := by
        simp [hs]
      rw [show pdReplace ((k, w) :: t) s = pdReplace t s from by simp [pdReplace, hs],
        ih ht s]
      by_cases hm2 : s ∈ List.map Prod.fst t
      · rw [if_pos hm2, if_pos (hiff.mpr hm2)]
      · rw [if_neg hm2, if_neg (fun hx => hm2 (hiff.mp hx))]

/-! ## Claim theorems -/

/-- C1. The claim states that the three parse tiers are all retried on the
ORIGINAL raw string, so that a date-only value such as "20/02/2024" is
recovered by the second tier (`format="%d/%m/%Y"`). The script instead
overwrites the column with the tier-1 result before retrying, so both retry
tiers re-parse the coerced `NaT` values and recover nothing: the pipeline
leaves "20/02/2024" unparsed even though the strict date-only format the
script itself supplies for tier 2 parses it. A timed value still parses at
tier 1, and a failing value is coerced to an absent timestamp rather than an
error — but the fallback the claim (and the script's own comments) describe
is dead code. -/
theorem C1_tiered_parse_code_bug :
    parse_marca_temporal (some "20/02/2024") = none ∧
    parse_dmY "20/02/2024" = some ⟨2024, 2, 20, 0, 0, 0⟩ ∧
    parse_marca_temporal (some "15/01/2024 10:00:00") = some ⟨2024, 1, 15, 10, 0, 0⟩ ∧
    parse_marca_temporal (some "garbage") = none := by
  refine ⟨by decide, by decide, by decide, by decide⟩

/-- C3. Normalization preserves the row count: `preprocess_data` only maps
each raw row to its normalized row and never drops one, whatever fields are
missing or unparseable. -/
theorem C3_row_count_preserved (t : RawTable) :
    (preprocess_data t).rows.length = t.rows.length := by
  simp [preprocess_data]

/-- C4. Yes/No alias resolution: each cell is stripped and uppercased, then
a value equal to an affirmative alias becomes "SI", a value equal to a
negative alias becomes "NO", and anything else passes through verbatim
(stripped and uppercased). In particular "Sí" gives "SI", "sin gestión"
gives "NO" and "maybe" gives "MAYBE". -/
theorem C4_yes_no_alias_resolution (x : String) :
    (normalize_sino x =
      if pyUpper (pyStrip x) ∈ siMap.map Prod.fst then "SI"
      else if pyUpper (pyStrip x) ∈ noMap.map Prod.fst then "NO"
      else pyUpper (pyStrip x)) ∧
    normalize_sino "Sí" = "SI" ∧
    normalize_sino "sin gestión" = "NO" ∧
    normalize_sino "maybe" = "MAYBE" := by
  refine ⟨?_, by decide, by decide, by decide⟩
  have hsi := pdReplace_const "SI" siMap (by decide)
  have hno := pdReplace_const "NO" noMap (by decide)
  unfold normalize_sino
  rw [hsi]
  by_cases h1 : pyUpper (pyStrip x) ∈ siMap.map Prod.fst
  · rw [if_pos h1, if_pos h1]
    decide
  · rw [if_neg h1, if_neg h1, hno]

/-- C5. The yes/no normalization (strip, uppercase, alias mapping) is
idempotent: a second application returns its input unchanged, because the
canonical tokens map to themselves and a passed-through value is already
stripped, uppercased and alias-free. -/
theorem C5_normalize_idempotent (x : String) :
    normalize_sino (normalize_sino x) = normalize_sino x := by
  have hsi := pdReplace_const "SI" siMap (by decide)
  have hno := pdReplace_const "NO" noMap (by decide)
  by_cases h1 : pyUpper (pyStrip x) ∈ siMap.map Prod.fst
  · have hx : normalize_sino x = "SI" := by
      unfold normalize_sino; rw [hsi, if_pos h1]; decide
    rw [hx]; decide
  · by_cases h2 : pyUpper (pyStrip x) ∈ noMap.map Prod.fst
    · have hx : normalize_sino x = "NO" := by
        unfold normalize_sino; rw [hsi, if_neg h1, hno, if_pos h2]
      rw [hx]; decide
    · have hx : normalize_sino x = pyUpper (pyStrip x) := by
        unfold normalize_sino; rw [hsi, if_neg h1, hno, if_neg h2]
      rw [hx]
      have hinv := strip_upper_invariant x
      unfold normalize_sino
      rw [hinv.1, hinv.2, hsi, if_neg h1, hno, if_neg h2]

/-- C6. The month-range mask for a record with a parsed timestamp: inside
the inclusive range when the bounds are ordered, wrap-around union when they
are not; with start 11 and end 2, month 12 and month 1 pass, month 6 does
not, and a record with no month (absent timestamp) always passes. -/
theorem C6_month_range_filter (s e m : Nat)
    (hs : 1 ≤ s ∧ s ≤ 12) (he : 1 ≤ e ∧ e ≤ 12) :
    (keep_month s e (some m) = true ↔ (if s ≤ e then s ≤ m ∧ m ≤ e else s ≤ m ∨ m ≤ e)) ∧
    keep_month 11 2 (some 12) = true ∧
    keep_month 11 2 (some 1) = true ∧
    keep_month 11 2 (some 6) = false ∧
    keep_month 11 2 none = true := by
  refine ⟨?_, by decide, by decide, by decide, by decide⟩
  unfold keep_month
  by_cases h : s ≤ e
  · simp [h]
  · simp [h]

/-- Witness for C6 at the concrete wrap-around bounds 11—2 and month 12. -/
theorem C6_month_range_witness :
    (keep_month 11 2 (some 12) = true ↔
      (if 11 ≤ 2 then 11 ≤ 12 ∧ 12 ≤ 2 else 11 ≤ 12 ∨ 12 ≤ 2)) ∧
    keep_month 11 2 (some 12) = true ∧
    keep_month 11 2 (some 1) = true ∧
    keep_month 11 2 (some 6) = false ∧
    keep_month 11 2 none = true :=
  C6_month_range_filter 11 2 12 (by decide) (by decide)

/-- Concrete table for the C2 counterexample: one row whose leader cell is
present but whose name cell is missing, so its group exists with a record
count of 1 while the denominator column `Nuevos` (the count of non-missing
names) is 0. -/
def c2row : NRow :=
  { marcaTemporal := none, anio := none, mes := none, mesNombre := none,
    semana := none, esFinSemana := none, nombres := none,
    llamada := some "NO", celula := some "NO", visita := some "NO",
    grupoEdad := none, barrioN := none, lider := some "A", reunionN := none }

/-- C2 counterexample. The claim asserts every per-group percentage is
exactly 0 (and never NaN) when its denominator is 0. On a group whose
`Nuevos` count is 0 the script divides 0 by 0 with no guard, so the
percentage is NaN, not 0. -/
theorem C2_zero_denominator_counterexample :
    (group_stats NRow.lider [c2row]).map GroupStat.nuevos = [0] ∧
    (group_stats NRow.lider [c2row]).map GroupStat.pctLlamadas = [PFloat.nan] ∧
    PFloat.nan ≠ PFloat.val 0 := by
  refine ⟨by decide, by decide, by decide⟩

/-- C2 amended. The three grand-total percentages are guarded: they are
exactly 0 when the filtered record count is 0. The per-group percentages
are unguarded float arithmetic: the denominator is the group's count of
non-missing names, and when it is 0 the result is NaN (numerator 0) or
+infinity (numerator positive), never 0 — though no error is raised, and
with a positive denominator the result is always a finite value. -/
theorem C2_zero_denominator_amended :
    (∀ n : Nat, pct_of n 0 = 0) ∧
    (∀ n : Nat, pct_group n 0 = if n = 0 then PFloat.nan else PFloat.inf) ∧
    (∀ n d : Nat, 0 < d →
      pct_group n d ≠ PFloat.nan ∧ pct_group n d ≠ PFloat.inf ∧ pct_group n d ≠ PFloat.ninf) := by
  refine ⟨fun n => by simp [pct_of], fun n => ?_, fun n d hd => ?_⟩
  · by_cases hn : n = 0
    · subst hn
      simp [pct_group, pfDiv, pfMul, pfRound1]
    · have h2 : (0 : ℚ) < (n : ℚ) := by
        exact_mod_cast Nat.pos_of_ne_zero hn
      simp [pct_group, pfDiv, pfMul, pfRound1, Nat.cast_eq_zero, hn, h2]
  · have hd0 : ((d : ℚ) = 0) = False := by
      simp [Nat.cast_eq_zero]
      omega
    simp [pct_group, pfDiv, pfMul, pfRound1, hd0]

/-- Witness for C2 amended: with denominator 2 the percentage is finite. -/
theorem C2_zero_denominator_witness :
    pct_group 1 2 ≠ PFloat.nan ∧ pct_group 1 2 ≠ PFloat.inf ∧ pct_group 1 2 ≠ PFloat.ninf :=
  C2_zero_denominator_amended.2.2 1 2 (by decide)

/-- C8. The weekend flag is dataset-wide: provided at least one timestamp
parsed, if any parsed timestamp falls on Monday—Friday (weekday < 5) the
flag marks exactly the rows whose own timestamp falls on Saturday or Sunday
(a row with no timestamp is not marked); otherwise every row of the dataset
is marked as weekend. -/
theorem C8_weekend_flag (ts : List (Option DateTime)) (v : Option DateTime)
    (hvalid : ts.any Option.isSome = true) :
    (tiene_entre_semana ts = true →
      es_fin_semana ts v = some (v.any (fun d => decide (5 ≤ dow_dt d)))) ∧
    (tiene_entre_semana ts = false → es_fin_semana ts v = some true) := by
  constructor
  · intro h
    unfold es_fin_semana
    rw [if_pos hvalid, if_pos h]
    cases v <;> simp [Option.any]
  · intro h
    unfold es_fin_semana
    rw [if_pos hvalid, if_neg (by simp [h])]

/-- Concrete dates for the C8 witness: a Monday and a Saturday of January
2024. -/
def c8monday : DateTime := ⟨2024, 1, 15, 10, 0, 0⟩

def c8saturday : DateTime := ⟨2024, 1, 13, 0, 0, 0⟩

/-- Witness for C8: a dataset containing a Monday flags a Saturday row by
its own weekday. -/
theorem C8_weekend_witness :
    (tiene_entre_semana [some c8monday, none] = true →
      es_fin_semana [some c8monday, none] (some c8saturday) =
        some ((some c8saturday).any (fun d => decide (5 ≤ dow_dt d)))) ∧
    (tiene_entre_semana [some c8monday, none] = false →
      es_fin_semana [some c8monday, none] (some c8saturday) = some true) :=
  C8_weekend_flag [some c8monday, none] (some c8saturday) (by decide)

/-- C9. A missing optional column never breaks aggregation, it only omits
its own output: on a table without a detected leader column the aggregation
returns `none` for the per-leader breakdown and every other aggregate is
the one computed on the full table; the same holds for the meeting column
(which also owns the meeting distribution). -/
theorem C9_missing_optional_columns (t : NTable) (rows : List NRow) :
    aggregate { t with columnaLider := none } rows =
      { aggregate t rows with lideres := none } ∧
    aggregate { t with columnaReunion := none } rows =
      { aggregate t rows with reuniones := none, reunionDist := none } := by
  constructor <;> simp [aggregate]

/-- C10. A missing cell of any of the three yes/no columns stringifies to
"nan" under `astype(str)` and normalizes to the literal "NAN": the flag does
not stay absent, maps to neither canonical token, and a row carrying it is
never counted by the corresponding affirmative total. Each of the three
columns (call, small group, visit) is covered by its own implication, gated
only on that column being present and that cell being missing. -/
theorem C10_missing_flag_nan (t : RawTable) (r : RawRow) :
    (("NAN" : String) ≠ "SI" ∧ ("NAN" : String) ≠ "NO") ∧
    ((cleaned_cols t).contains colLlamada = true → r.llamada = none →
      (normalize_row t r).llamada = some "NAN" ∧
      ∀ (nt : NTable) (rows : List NRow),
        (aggregate nt (normalize_row t r :: rows)).totalLlamadas =
          (aggregate nt rows).totalLlamadas) ∧
    ((cleaned_cols t).contains colCelula = true → r.celula = none →
      (normalize_row t r).celula = some "NAN" ∧
      ∀ (nt : NTable) (rows : List NRow),
        (aggregate nt (normalize_row t r :: rows)).totalCelula =
          (aggregate nt rows).totalCelula) ∧
    ((cleaned_cols t).contains colVisita = true → r.visita = none →
      (normalize_row t r).visita = some "NAN" ∧
      ∀ (nt : NTable) (rows : List NRow),
        (aggregate nt (normalize_row t r :: rows)).totalVisita =
          (aggregate nt rows).totalVisita) := by
  refine ⟨⟨by decide, by decide⟩, fun hcol hmiss => ?_, fun hcol hmiss => ?_,
    fun hcol hmiss => ?_⟩
  · have hval : (normalize_row t r).llamada = some "NAN" := by
      show (if (cleaned_cols t).contains colLlamada = true
        then some (normalize_cell r.llamada) else none) = some "NAN"
      rw [if_pos hcol, hmiss]
      decide
    refine ⟨hval, fun nt rows => ?_⟩
    show (if nt.hasLlamada = true
        then ((normalize_row t r :: rows).filter (fun x => x.llamada == some "SI")).length
        else 0) =
      (if nt.hasLlamada = true
        then (rows.filter (fun x => x.llamada == some "SI")).length else 0)
    by_cases h : nt.hasLlamada = true
    · rw [if_pos h, if_pos h, List.filter_cons]
      have hne : ((normalize_row t r).llamada == some "SI") = false := by
        rw [hval]; decide
      simp [hne]
    · rw [if_neg h, if_neg h]
  · have hval : (normalize_row t r).celula = some "NAN" := by
      show (if (cleaned_cols t).contains colCelula = true
        then some (normalize_cell r.celula) else none) = some "NAN"
      rw [if_pos hcol, hmiss]
      decide
    refine ⟨hval, fun nt rows => ?_⟩
    show (if nt.hasCelula = true
        then ((normalize_row t r :: rows).filter (fun x => x.celula == some "SI")).length
        else 0) =
      (if nt.hasCelula = true
        then (rows.filter (fun x => x.celula == some "SI")).length else 0)
    by_cases h : nt.hasCelula = true
    · rw [if_pos h, if_pos h, List.filter_cons]
      have hne : ((normalize_row t r).celula == some "SI") = false := by
        rw [hval]; decide
      simp [hne]
    · rw [if_neg h, if_neg h]
  · have hval : (normalize_row t r).visita = some "NAN" := by
      show (if (cleaned_cols t).contains colVisita = true
        then some (normalize_cell r.visita) else none) = some "NAN"
      rw [if_pos hcol, hmiss]
      decide
    refine ⟨hval, fun nt rows => ?_⟩
    show (if nt.hasVisita = true
        then ((normalize_row t r :: rows).filter (fun x => x.visita == some "SI")).length
        else 0) =
      (if nt.hasVisita = true
        then (rows.filter (fun x => x.visita == some "SI")).length else 0)
    by_cases h : nt.hasVisita = true
    · rw [if_pos h, if_pos h, List.filter_cons]
      have hne : ((normalize_row t r).visita == some "SI") = false := by
        rw [hval]; decide
      simp [hne]
    · rw [if_neg h, if_neg h]

/-- Concrete raw data for the C10 witness: the three yes/no columns are
present but every yes/no cell of the single row is missing. -/
def c10raw : RawRow :=
  { marcaTemporal := none, nombres := none, llamada := none, celula := none,
    visita := none, tuEres := none, barrio := none, lider := none, reunion := none }

def c10table : RawTable :=
  { columns := [colLlamada, colCelula, colVisita], rows := [c10raw] }

set_option maxRecDepth 8192 in
/-- Witness for C10 on the concrete one-row table, covering each of the
three yes/no columns and its affirmative total. -/
theorem C10_missing_flag_witness :
    ((normalize_row c10table c10raw).llamada = some "NAN" ∧
      ∀ (nt : NTable) (rows : List NRow),
        (aggregate nt (normalize_row c10table c10raw :: rows)).totalLlamadas =
          (aggregate nt rows).totalLlamadas) ∧
    ((normalize_row c10table c10raw).celula = some "NAN" ∧
      ∀ (nt : NTable) (rows : List NRow),
        (aggregate nt (normalize_row c10table c10raw :: rows)).totalCelula =
          (aggregate nt rows).totalCelula) ∧
    ((normalize_row c10table c10raw).visita = some "NAN" ∧
      ∀ (nt : NTable) (rows : List NRow),
        (aggregate nt (normalize_row c10table c10raw :: rows)).totalVisita =
          (aggregate nt rows).totalVisita) :=
  ⟨(C10_missing_flag_nan c10table c10raw).2.1 (by decide) rfl,
   (C10_missing_flag_nan c10table c10raw).2.2.1 (by decide) rfl,
   (C10_missing_flag_nan c10table c10raw).2.2.2 (by decide) rfl⟩

/-- Membership in one gated filter stage. -/
theorem mem_ite_filter {α : Type} {P : Prop} [Decidable P] {p : α → Bool}
    {l : List α} {r : α} :
    (r ∈ if P then l.filter p else l) ↔ r ∈ l ∧ (P → p r = true) := by
  split_ifs with h
  · simp only [List.mem_filter]
    tauto
  · tauto

/-- Membership in the whole filter pipeline, stage by stage. -/
theorem mem_df_filtrado (t : NTable) (c : Criteria) (r : NRow) :
    r ∈ df_filtrado t c ↔ r ∈ t.rows ∧
      ((c.anios ≠ [] ∧ t.hasMarca = true) → keep_anio c.anios r.anio = true) ∧
      ((c.usarFiltroMeses = true ∧ t.hasMarca = true ∧
          t.rows.any (fun x => x.mes.isSome) = true) →
        keep_month c.mesInicio c.mesFin r.mes = true) ∧
      ((c.grupo ≠ "Todos" ∧ t.hasGrupoEdad = true) → (r.grupoEdad == some c.grupo) = true) ∧
      ((c.lider ≠ "Todos" ∧ t.columnaLider.isSome = true) → (r.lider == some c.lider) = true) ∧
      ((c.reunion ≠ "Todas" ∧ t.columnaReunion.isSome = true) →
        (r.reunionN == some c.reunion) = true) := by
  unfold df_filtrado
  simp only [mem_ite_filter]
  tauto

/-- The Boolean `nontemporal_pass` is the conjunction of the three gated
non-temporal conditions. -/
theorem nontemporal_pass_iff (t : NTable) (c : Criteria) (r : NRow) :
    nontemporal_pass t c r = true ↔
      ((c.grupo ≠ "Todos" ∧ t.hasGrupoEdad = true) → (r.grupoEdad == some c.grupo) = true) ∧
      ((c.lider ≠ "Todos" ∧ t.columnaLider.isSome = true) → (r.lider == some c.lider) = true) ∧
      ((c.reunion ≠ "Todas" ∧ t.columnaReunion.isSome = true) →
        (r.reunionN == some c.reunion) = true) := by
  unfold nontemporal_pass
  simp only [Bool.and_eq_true]
  constructor
  · rintro ⟨⟨h1, h2⟩, h3⟩
    refine ⟨fun hg => ?_, fun hl => ?_, fun hr => ?_⟩
    · rwa [if_pos hg] at h1
    · rwa [if_pos hl] at h2
    · rwa [if_pos hr] at h3
  · rintro ⟨h1, h2, h3⟩
    refine ⟨⟨?_, ?_⟩, ?_⟩
    · by_cases hg : c.grupo ≠ "Todos" ∧ t.hasGrupoEdad = true
      · rw [if_pos hg]; exact h1 hg
      · rw [if_neg hg]
    · by_cases hl : c.lider ≠ "Todos" ∧ t.columnaLider.isSome = true
      · rw [if_pos hl]; exact h2 hl
      · rw [if_neg hl]
    · by_cases hr : c.reunion ≠ "Todas" ∧ t.columnaReunion.isSome = true
      · rw [if_pos hr]; exact h3 hr
      · rw [if_neg hr]

/-- C7. A record whose timestamp failed to parse survives both time-based
filters under every criteria: it belongs to the filtered set exactly when it
passes the non-temporal (age-group, leader, meeting) stages, and the grand
total counts exactly the filtered rows, so such a record is counted whenever
it passes them. -/
theorem C7_undated_survive_filters (rt : RawTable) (c : Criteria) (r : NRow)
    (hmem : r ∈ (preprocess_data rt).rows) (hts : r.marcaTemporal = none) :
    (r ∈ df_filtrado (preprocess_data rt) c ↔
      nontemporal_pass (preprocess_data rt) c r = true) ∧
    (aggregate (preprocess_data rt) (df_filtrado (preprocess_data rt) c)).totalPersonas =
      (df_filtrado (preprocess_data rt) c).length := by
  refine ⟨?_, rfl⟩
  have hmem' := hmem
  rw [show (preprocess_data rt).rows = rt.rows.map (normalize_row rt) from rfl] at hmem'
  obtain ⟨rr, hrr, hr⟩ := List.mem_map.mp hmem'
  subst hr
  have hmt : parsed_cell rt rr = none := hts
  have hAnio : (normalize_row rt rr).anio = none := by
    show (parsed_cell rt rr).map DateTime.year = none
    rw [hmt]; rfl
  have hMes : (normalize_row rt rr).mes = none := by
    show (parsed_cell rt rr).map DateTime.month = none
    rw [hmt]; rfl
  rw [mem_df_filtrado, nontemporal_pass_iff]
  have hka : keep_anio c.anios (normalize_row rt rr).anio = true := by rw [hAnio]; rfl
  have hkm : keep_month c.mesInicio c.mesFin (normalize_row rt rr).mes = true := by
    rw [hMes]; rfl
  simp only [hka, hkm]
  tauto

/-- Concrete data for the C7 witness: a one-row table whose timestamp cell
does not parse, with no other filterable column, and active year and month
filters. -/
def c7raw : RawRow :=
  { marcaTemporal := some "fecha invalida", nombres := some "Ana",
    llamada := none, celula := none, visita := none, tuEres := none,
    barrio := none, lider := none, reunion := none }

def c7table : RawTable := { columns := [colMarca], rows := [c7raw] }

def c7crit : Criteria :=
  { anios := [2024], usarFiltroMeses := true, mesInicio := 11, mesFin := 2,
    grupo := "Todos", lider := "Todos", reunion := "Todas" }

set_option maxRecDepth 8192 in
/-- Witness for C7 on the concrete undated row under active year and month
filters. -/
theorem C7_undated_witness :
    (normalize_row c7table c7raw ∈ df_filtrado (preprocess_data c7table) c7crit ↔
      nontemporal_pass (preprocess_data c7table) c7crit (normalize_row c7table c7raw) = true) ∧
    (aggregate (preprocess_data c7table)
        (df_filtrado (preprocess_data c7table) c7crit)).totalPersonas =
      (df_filtrado (preprocess_data c7table) c7crit).length :=
  C7_undated_survive_filters c7table c7crit (normalize_row c7table c7raw)
    (by decide) (by decide)
